import Mathlib

/-!
# Verification of the aiorussound RIO session engine (`src/aiorussound/rio.py`)

Shallow embedding of the connection/session engine of the `aiorussound`
library: the variable cache with callback fan-out, the response processor,
the command-correlating IO loop, the watch registry and the connect gate.

Python dictionaries are embedded as insertion-ordered association lists,
callbacks as opaque numeric identifiers whose invocations are recorded in a
trace, and exceptions as explicit result constructors.  The asynchronous IO
loop (`Russound._ioloop`) is embedded as a small-step transition system
driven by a scheduling choice at each suspension point.
-/

namespace Rio

/-- Python `str.lower()` as used on variable keys (`rio.py:74,85`),
implemented over the character list so that it evaluates in the kernel. -/
def pyLower (s : String) : String := String.mk (s.data.map Char.toLower)

/-- Insertion-ordered lookup of a Python `dict`, `d[k]` returning `None`
style (`d.get(k)`). -/
def dictGet {α : Type} (m : List (String × α)) (k : String) : Option α :=
  match m with
  | [] => none
  | (k', v) :: rest => if k' = k then some v else dictGet rest k

/-- `d.get(k, default)`. -/
def dictGetD {α : Type} (m : List (String × α)) (k : String) (d : α) : α :=
  (dictGet m k).getD d

/-- `dictGet` for the integer-keyed dicts (`sources`, `controllers`,
`zones`). -/
def dictIntGet {α : Type} (m : List (Int × α)) (k : Int) : Option α :=
  match m with
  | [] => none
  | (k', v) :: rest => if k' = k then some v else dictIntGet rest k

/-- `d[k] = v` on a Python `dict`: update in place when the key exists,
append otherwise (insertion order preserved). -/
def dictSet {α : Type} (m : List (String × α)) (k : String) (v : α) :
    List (String × α) :=
  match m with
  | [] => [(k, v)]
  | (k', v') :: rest =>
    if k' = k then (k', v) :: rest else (k', v') :: dictSet rest k v

theorem dictGet_dictSet {α : Type} (m : List (String × α)) (k k' : String) (v : α) :
    dictGet (dictSet m k v) k' = if k' = k then some v else dictGet m k' := by
  induction m with
  | nil =>
    by_cases h : k' = k
    · subst h; simp [dictSet, dictGet]
    · have h2 : ¬ k = k' := fun he => h he.symm
      simp [dictSet, dictGet, h, h2]
  | cons p rest ih =>
    obtain ⟨k₀, v₀⟩ := p
    by_cases h0 : k₀ = k
    · subst h0
      simp only [dictSet, if_pos rfl, dictGet]
      by_cases h1 : k₀ = k'
      · subst h1; simp
      · have h2 : ¬ k' = k₀ := fun he => h1 he.symm
        simp [h1, h2]
    · simp only [dictSet, if_neg h0, dictGet, ih]
      by_cases h1 : k₀ = k'
      · subst h1
        have h2 : ¬ k₀ = k := h0
        simp [h2]
      · simp [h1]

/-! ## Data model: sources, zones, controllers (`rio.py` classes) -/

/-- Modelled from the spec: `source_device_str` lives in `aiorussound.util`,
which is not under `src/`; §6 of the spec gives the source address shape
`S[<sourceId>...]`. -/
def source_device_str (source_id : Int) : String :=
  "S[" ++ toString source_id ++ "]"

/-- Modelled from the spec: `zone_device_str` lives in `aiorussound.util`,
which is not under `src/`; §6 of the spec gives the controller/zone address
shape `C[<controllerId>].Z[<zoneId>]...`. -/
def zone_device_str (controller_id zone_id : Int) : String :=
  "C[" ++ toString controller_id ++ "].Z[" ++ toString zone_id ++ "]"

/-- `Source.__init__` state (`rio.py:653`): identity fields only; the
`instance` back-reference is the ambient `RState`. -/
structure Source where
  source_id : Int
  name : String
deriving DecidableEq

/-- `Source.device_str` (`rio.py:684`). -/
def Source.device_str (s : Source) : String := source_device_str s.source_id

/-- `Zone.__init__` state (`rio.py:438`); the controller reference is
flattened to its id, which is all `Zone.device_str` uses. -/
structure Zone where
  controller_id : Int
  zone_id : Int
  name : String
deriving DecidableEq

/-- `Zone.device_str` (`rio.py:472`). -/
def Zone.device_str (z : Zone) : String := zone_device_str z.controller_id z.zone_id

/-- `Controller.__init__` state (`rio.py:368`): id and its `zones` dict. -/
structure Controller where
  controller_id : Int
  zones : List (Int × Zone)
deriving DecidableEq

/-- A recorded invocation of a device callback: callback identity plus the
three arguments `(device_str, key, value)` it was called with
(`rio.py:89-90,97-98`). -/
structure CbCall where
  cb : Nat
  device_str : String
  key : String
  value : String
deriving DecidableEq

/-- Python exceptions (other than `CommandError`) that can escape the cache
fan-out: `KeyError` from `self.instance.sources[current_source]`
(`rio.py:515`) and `ValueError` from `int(self.current_source)`
(`rio.py:514`). -/
inductive PyErr where
  | keyError
  | valueError
deriving DecidableEq

/-- The mutable state of a `Russound` instance (`rio.py:47-66`) that the
claims exercise: the two-level variable cache `_state`, the callback
registries, the device topology and the watch set. -/
structure RState where
  state : List (String × List (String × String))
  callbacks : List (String × List Nat)
  connection_callbacks : List Nat
  controllers : List (Int × Controller)
  sources : List (Int × Source)
  watched : List String
  connected : Bool
  connection_started : Bool
deriving DecidableEq

/-! ## Variable cache (`rio.py:68-98`, `rio.py:277-284`) -/

/-- `Russound._retrieve_cached_variable` (`rio.py:68`): two-level dict
lookup with the key lower-cased; `none` models raising
`UncachedVariableError`. -/
def _retrieve_cached_variable (state : List (String × List (String × String)))
    (device_str key : String) : Option String :=
  match dictGet state device_str with
  | none => none
  | some m => dictGet m (pyLower key)

/-- The cache-write part of `Russound._store_cached_variable`
(`rio.py:84-86`): `setdefault` then assignment under the lower-cased key. -/
def cacheStore (state : List (String × List (String × String)))
    (device_str key value : String) : List (String × List (String × String)) :=
  dictSet state device_str (dictSet (dictGetD state device_str []) (pyLower key) value)

/-- `Russound.get_cached_variable` (`rio.py:277`): cached read falling back
to the supplied default. -/
def get_cached_variable (state : List (String × List (String × String)))
    (device_str key : String) (default : Option String) : Option String :=
  match _retrieve_cached_variable state device_str key with
  | some v => some v
  | none => default

/-- A sequence of cache writes applied in order. -/
def applyStores (state : List (String × List (String × String))) :
    List (String × String × String) → List (String × List (String × String))
  | [] => state
  | (d, k, v) :: rest => applyStores (cacheStore state d k v) rest

theorem retrieve_cacheStore (state : List (String × List (String × String)))
    (d k v : String) (d' k' : String) :
    _retrieve_cached_variable (cacheStore state d k v) d' k' =
      if d' = d ∧ (pyLower k') = (pyLower k) then some v
      else _retrieve_cached_variable state d' k' := by
  by_cases hd : d' = d
  · subst hd
    unfold _retrieve_cached_variable cacheStore
    rw [dictGet_dictSet, if_pos rfl]
    show dictGet (dictSet (dictGetD state d' []) (pyLower k) v) (pyLower k') = _
    rw [dictGet_dictSet]
    by_cases hk : (pyLower k') = (pyLower k)
    · simp [hk]
    · simp only [hk, if_false, true_and]
      unfold dictGetD
      cases h : dictGet state d' <;> simp [h, dictGet]
  · unfold _retrieve_cached_variable cacheStore
    rw [dictGet_dictSet, if_neg hd]
    have hnd : ¬ (d' = d ∧ (pyLower k') = (pyLower k)) := fun hc => hd hc.1
    simp [hnd]

/-! ## Callback registry (`rio.py:206-217`) -/

/-- `Russound.add_callback` (`rio.py:206`): `setdefault` then `append`, so
callbacks for a device are kept in registration order. -/
def add_callback (cbs : List (String × List Nat)) (device_str : String) (c : Nat) :
    List (String × List Nat) :=
  dictSet cbs device_str (dictGetD cbs device_str [] ++ [c])

/-- Python `list.remove`: delete the first occurrence; `none` models the
`ValueError` raised when the element is absent. -/
def pyListRemove (l : List Nat) (x : Nat) : Option (List Nat) :=
  match l with
  | [] => none
  | y :: ys => if y = x then some ys else (pyListRemove ys x).map (y :: ·)

/-- `Russound.remove_callback` (`rio.py:214`): iterate over every device's
callback list, calling `list.remove` on each in dict order.  The returned
flag is `false` when a `ValueError` escaped; because Python lists are
mutated in place, the devices processed before the failure keep their
mutation, and the failing device and all later ones are untouched. -/
def remove_callback (cbs : List (String × List Nat)) (f : Nat) :
    List (String × List Nat) × Bool :=
  match cbs with
  | [] => ([], true)
  | (d, l) :: rest =>
    match pyListRemove l f with
    | none => ((d, l) :: rest, false)
    | some l' =>
      let (rest', ok) := remove_callback rest f
      ((d, l') :: rest', ok)

/-! ## Source-to-zone fan-out (`rio.py:80-98`, `rio.py:503-515`) -/

/-- Digit run to a number. -/
def digitsVal (ds : List Char) : Nat :=
  ds.foldl (fun n c => n * 10 + (c.toNat - 48)) 0

/-- Python `int(...)` applied to the cached current-source string
(`rio.py:514`): surrounding whitespace stripped, an optional sign, then
digits; `none` models the `ValueError` on anything else. -/
def pyInt (s : String) : Option Int :=
  let cs := ((s.data.dropWhile Char.isWhitespace).reverse.dropWhile
    Char.isWhitespace).reverse
  match cs with
  | '-' :: ds =>
    if ds ≠ [] ∧ ds.all Char.isDigit then some (-(digitsVal ds : Int)) else none
  | '+' :: ds =>
    if ds ≠ [] ∧ ds.all Char.isDigit then some (digitsVal ds : Int) else none
  | ds =>
    if ds ≠ [] ∧ ds.all Char.isDigit then some (digitsVal ds : Int) else none

/-- `Zone.current_source` (`rio.py:506-510`): cached `currentSource` with
default `"1"`. -/
def Zone.current_source (rs : RState) (z : Zone) : String :=
  (get_cached_variable rs.state z.device_str "currentSource" (some "1")).getD "1"

/-- `Zone.fetch_current_source` (`rio.py:512`): parse the cached current
source and index `instance.sources`; either step can raise. -/
def fetch_current_source (rs : RState) (z : Zone) : Except PyErr Source :=
  match pyInt (Zone.current_source rs z) with
  | none => .error .valueError
  | some n =>
    match dictIntGet rs.sources n with
    | none => .error .keyError
    | some s => .ok s

/-- All zones in the order `for controller in self._controllers.values():
for zone in controller.zones.values():` visits them (`rio.py:93-94`). -/
def allZones (rs : RState) : List Zone :=
  (rs.controllers.map (fun p => p.2.zones.map (fun q => q.2))).flatten

/-- The zone fan-out loop of `_store_cached_variable` (`rio.py:92-98`),
already past the cache write: for each zone, resolve its current source;
when it equals the stored device, invoke the zone's callbacks.  On an
exception the calls already made are carried alongside the error. -/
def zoneFanout (rs : RState) (device_str key value : String) :
    List Zone → Except (PyErr × List CbCall) (List CbCall)
  | [] => .ok []
  | z :: rest =>
    match fetch_current_source rs z with
    | .error e => .error (e, [])
    | .ok source =>
      let calls :=
        if source.device_str = device_str then
          (dictGetD rs.callbacks z.device_str []).map
            (fun c => CbCall.mk c device_str key value)
        else []
      match zoneFanout rs device_str key value rest with
      | .error (e, acc) => .error (e, calls ++ acc)
      | .ok acc => .ok (calls ++ acc)

/-- Outcome of `_store_cached_variable`: either it returns normally with the
updated state and the callback invocations it made, or an exception escaped
the fan-out after the cache write and the direct callbacks already
happened. -/
inductive StoreResult where
  | ok (rs : RState) (calls : List CbCall)
  | err (e : PyErr) (rs : RState) (calls : List CbCall)
deriving DecidableEq

/-- The callback invocations a `StoreResult` carries. -/
def StoreResult.calls : StoreResult → List CbCall
  | .ok _ calls => calls
  | .err _ _ calls => calls

/-- Python's `device_str[0]` (`rio.py:92`); device strings are never
empty, the default is irrelevant. -/
def pyFirstChar (s : String) : Char := s.data.headD ' '

/-- `Russound._store_cached_variable` (`rio.py:80`): lower-case the key,
write the cache, fire the device's own callbacks in registration order,
then — when the device string starts with `S` — fan out to every zone whose
current source resolves to this device. -/
def _store_cached_variable (rs : RState) (device_str key value : String) :
    StoreResult :=
  let k := (pyLower key)
  let rs' : RState := { rs with state := cacheStore rs.state device_str key value }
  let direct := (dictGetD rs'.callbacks device_str []).map
    (fun c => CbCall.mk c device_str k value)
  if pyFirstChar device_str = 'S' then
    match zoneFanout rs' device_str k value (allZones rs') with
    | .error (e, acc) => .err e rs' (direct ++ acc)
    | .ok acc => .ok rs' (direct ++ acc)
  else .ok rs' direct

/-! ## Response processing (`rio.py:100-126`) -/

/-- Modelled from the spec: `RESPONSE_REGEX` lives in `aiorussound.const`,
which is not under `src/`.  Per §6 of the spec, a push payload matches one
of three shapes — a controller/zone-addressed variable, a source-addressed
variable, or a bare value with no address — yielding the named groups
`source`, `controller`, `zone`, `variable`, `value` and `value_only` that
`_process_response` consumes.  A `Match` is the result of a successful
regex match on a payload. -/
inductive Match where
  | sourceAddr (source : Int) (var value : String)
  | zoneAddr (controller zone : Int) (var value : String)
  | bare (value_only : String)
deriving DecidableEq

/-- One decoded transport line after the `str(res, "utf-8").strip()` and
tag/payload split of `rio.py:101-104`: either it stripped to the empty
string (including the empty read an ended stream yields), or it carries its
tag character, raw payload text and the (modelled) `RESPONSE_REGEX` match
result on that payload. -/
inductive Line where
  | blank
  | mk (tag : Char) (payload : String) (m : Option Match)
deriving DecidableEq

/-- Python's `p["value"] or p["value_only"]` (`rio.py:126`): an empty
`value` group is falsy and falls through to `value_only`. -/
def pyOr (a b : Option String) : Option String :=
  match a with
  | some s => if s = "" then b else some s
  | none => b

/-- Outcome of `Russound._process_response`:
`ok` carries the updated state, the callback invocations made, and the
returned `(ty, value)` pair; `cmdError` models the `CommandError` raised
for an `E` line; `crashed` models a non-`CommandError` exception escaping
the cache fan-out, with the partial effects that already happened. -/
inductive ProcResult where
  | ok (rs : RState) (calls : List CbCall) (ty : Option Char) (value : Option String)
  | cmdError (msg : String)
  | crashed (e : PyErr) (rs : RState) (calls : List CbCall)
deriving DecidableEq

/-- `Russound._process_response` (`rio.py:100`): blank lines yield
`(None, None)`; an `E` tag raises `CommandError(payload)` before any regex
match; an unmatched payload returns `(ty, None)`; a source- or
zone-addressed match stores the variable (with callbacks) and returns
`(ty, value or value_only)`. -/
def _process_response (rs : RState) (res : Line) : ProcResult :=
  match res with
  | .blank => .ok rs [] none none
  | .mk ty payload m =>
    if ty = 'E' then .cmdError payload
    else
      match m with
      | none => .ok rs [] (some ty) none
      | some (.sourceAddr source_id var value) =>
        (match _store_cached_variable rs (source_device_str source_id) var value with
         | .ok rs' calls => .ok rs' calls (some ty) (pyOr (some value) none)
         | .err e rs' calls => .crashed e rs' calls)
      | some (.zoneAddr controller_id zone_id var value) =>
        (match _store_cached_variable rs (zone_device_str controller_id zone_id) var value with
         | .ok rs' calls => .ok rs' calls (some ty) (pyOr (some value) none)
         | .err e rs' calls => .crashed e rs' calls)
      | some (.bare value_only) => .ok rs [] (some ty) (pyOr none (some value_only))

/-! ## The session loop (`rio.py:134-197`) as a transition system -/

/-- How a command's result slot (`asyncio.Future`) was resolved:
`future.set_result(value)` (`rio.py:170`) or `future.set_exception(e)` for a
`CommandError` with the device message (`rio.py:173`). -/
inductive SlotRes where
  | value (v : Option String)
  | exn (msg : String)
deriving DecidableEq

/-- Control position of the loop: `outer` races the command queue against
the reader (`rio.py:143-162`); `inner slot` is the reply sub-loop for the
in-flight command (`rio.py:164-174`); `dead pending` is a loop that exited
(cancellation or an unhandled exception), recording the slot that was in
flight and never resolved, if any. -/
inductive Phase where
  | outer
  | inner (slot : Nat)
  | dead (pending : Option Nat)
deriving DecidableEq

/-- The observable state of one `_ioloop` session: the `Russound` state,
the FIFO command queue (`_cmd_queue`), the remaining transport input (`[]`
models end-of-stream, where `readline` returns an empty line forever), the
write log, the slot resolutions in order, the device-callback trace, the
connection-callback trace, and the control phase.  `enqueued` is the ghost
list of every command ever put on the queue, in order. -/
structure LoopState where
  rs : RState
  queue : List (String × Nat)
  enqueued : List (String × Nat)
  input : List Line
  written : List (String × Nat)
  resolved : List (Nat × SlotRes)
  trace : List CbCall
  connTrace : List (Nat × Bool)
  phase : Phase
deriving DecidableEq

/-- A scheduling choice at the loop's suspension points: the reader future
completes, the queue future completes, a caller enqueues a command
(`send_cmd`, `rio.py:199-204`), or the loop task is cancelled
(`close`, `rio.py:250-259`). -/
inductive SChoice where
  | net
  | cmd
  | put (c : String) (slot : Nat)
  | cancel
deriving DecidableEq

/-- `Russound._set_connected` (`rio.py:229`): set the flag and invoke every
connection callback with it. -/
def setConnected (s : LoopState) (b : Bool) : LoopState :=
  { s with rs := { s.rs with connected := b },
           connTrace := s.connTrace ++ s.rs.connection_callbacks.map (fun c => (c, b)) }

/-- `reader.readline()`: the next line, or a blank line forever once the
stream has ended. -/
def readLine (s : LoopState) : Line × List Line :=
  match s.input with
  | [] => (Line.blank, [])
  | l :: rest => (l, rest)

/-- The `except asyncio.CancelledError` handler plus the `finally` block of
`_ioloop` (`rio.py:175-193`) on cancellation via `close()`:
`_set_connected(False)` runs in the handler and again in `finally`; the
queue/read/keep-alive futures are cancelled; the in-flight slot, if any, is
never resolved; `close()` cleared `_connection_started` so no reconnect. -/
def dieCancel (s : LoopState) (pending : Option Nat) : LoopState :=
  let s1 := setConnected s false
  let s2 := setConnected s1 false
  { s2 with rs := { s2.rs with connection_started := false }, phase := .dead pending }

/-- The `except Exception` handler plus the `finally` block of `_ioloop`
(`rio.py:183-193`) when a non-`CommandError` exception escapes response
processing: `_set_connected(False)` twice, futures cancelled, in-flight
slot never resolved. -/
def dieCrash (s : LoopState) (pending : Option Nat) : LoopState :=
  let s1 := setConnected s false
  let s2 := setConnected s1 false
  { s2 with phase := .dead pending }

/-- The `if net_future in done` branch of the outer loop (`rio.py:148-154`):
process the line; `CommandError` is swallowed (`except CommandError: pass`);
any other exception kills the loop. -/
def handleLineOuter (s : LoopState) : LoopState :=
  let l := (readLine s).1
  let rest := (readLine s).2
  match _process_response s.rs l with
  | .ok rs' calls _ _ =>
    { s with rs := rs', trace := s.trace ++ calls, input := rest }
  | .cmdError _ => { s with input := rest }
  | .crashed _ rs' calls =>
    dieCrash { s with rs := rs', trace := s.trace ++ calls, input := rest } none

/-- One iteration of the reply sub-loop (`rio.py:164-174`): read a line;
an `S` tag resolves the slot with the value and exits to the outer loop; a
`CommandError` resolves the slot with the device message and exits; any
other line is consumed (its events stored) and the sub-loop continues; a
non-`CommandError` exception kills the loop with the slot unresolved. -/
def handleLineInner (s : LoopState) (slot : Nat) : LoopState :=
  let l := (readLine s).1
  let rest := (readLine s).2
  match _process_response s.rs l with
  | .ok rs' calls ty value =>
    let s' := { s with rs := rs', trace := s.trace ++ calls, input := rest }
    if ty = some 'S' then
      { s' with resolved := s.resolved ++ [(slot, .value value)], phase := .outer }
    else s'
  | .cmdError msg =>
    { s with input := rest, resolved := s.resolved ++ [(slot, .exn msg)],
             phase := .outer }
  | .crashed _ rs' calls =>
    dieCrash { s with rs := rs', trace := s.trace ++ calls, input := rest } (some slot)

/-- One step of the session loop under a scheduling choice.  In the outer
phase `cmd` dequeues, writes the command with its `"\r"` terminator
(`rio.py:157-160`) and enters the reply sub-loop; `net` processes one line;
in the inner phase only the reader (or cancellation, or a concurrent
enqueue) can fire.  A dead loop absorbs every choice. -/
def step (s : LoopState) (c : SChoice) : LoopState :=
  match s.phase with
  | .dead _ => s
  | .outer =>
    match c with
    | .put cmd slot =>
      { s with queue := s.queue ++ [(cmd, slot)],
               enqueued := s.enqueued ++ [(cmd, slot)] }
    | .cancel => dieCancel s none
    | .net => handleLineOuter s
    | .cmd =>
      match s.queue with
      | [] => s
      | (cmd, slot) :: rest =>
        { s with queue := rest,
                 written := s.written ++ [(cmd ++ "\r", slot)],
                 phase := .inner slot }
  | .inner slot =>
    match c with
    | .put cmd slot' =>
      { s with queue := s.queue ++ [(cmd, slot')],
               enqueued := s.enqueued ++ [(cmd, slot')] }
    | .cancel => dieCancel s (some slot)
    | .net => handleLineInner s slot
    | .cmd => s

/-- Run the session loop under a schedule. -/
def runLoop (s : LoopState) : List SChoice → LoopState
  | [] => s
  | c :: cs => runLoop (step s c) cs

/-- The loop state right after `_ioloop` starts (`rio.py:137-143`): nothing
written or resolved, the queue holding the commands already enqueued. -/
def initState (rs : RState) (q : List (String × Nat)) (input : List Line) :
    LoopState :=
  { rs := rs, queue := q, enqueued := q, input := input, written := [],
    resolved := [], trace := [], connTrace := [], phase := .outer }

/-! ## Watch registry (`rio.py:335-348`) -/

/-- An observable effect of `watch`/`unwatch`, in program order: a mutation
of `_watched_devices` or a command handed to `send_cmd`. -/
inductive Eff where
  | setInsert (d : String)
  | setDelete (d : String)
  | cmdSent (c : String)
deriving DecidableEq

/-- `self._watched_devices[device_str] = True` (`rio.py:337`): dict key set,
appending when absent. -/
def addWatched (w : List String) (d : String) : List String :=
  if d ∈ w then w else w ++ [d]

/-- `Russound.watch` (`rio.py:335`): the watch set is updated BEFORE the
`WATCH ... ON` command is sent; the returned effect list records that
order. -/
def watch (w : List String) (d : String) : List String × List Eff :=
  (addWatched w d, [Eff.setInsert d, Eff.cmdSent ("WATCH " ++ d ++ " ON")])

/-- `Russound.unwatch` (`rio.py:340`): `del self._watched_devices[...]`
runs first, raising `KeyError` (the `some "KeyError"` component) for an
unwatched device before any `WATCH ... OFF` command is sent. -/
def unwatch (w : List String) (d : String) :
    Option String × List String × List Eff :=
  if d ∈ w then
    (none, w.erase d, [Eff.setDelete d, Eff.cmdSent ("WATCH " ++ d ++ " OFF")])
  else (some "KeyError", w, [])

/-- `Russound._watch_cached_devices` (`rio.py:345`): re-issue `watch` for
every watched device, in order. -/
def _watch_cached_devices (w : List String) : List Eff :=
  (w.map (fun d => (watch w d).2)).flatten

/-! ## The connect gate (`rio.py:234-248`) -/

/-- Modelled from the spec: `is_fw_version_higher` lives in
`aiorussound.util` and `MINIMUM_API_SUPPORT` in `aiorussound.const`,
neither under `src/`.  §4.4/§8 of the spec say connect fails when "the
reported version is below the configured minimum"; firmware versions are
modelled as dotted numeric strings compared componentwise, left to right,
`is_fw_version_higher v minimum` holding when `v` is at least `minimum`. -/
def splitOnDot : List Char → List (List Char)
  | [] => [[]]
  | c :: rest =>
    if c = '.' then [] :: splitOnDot rest
    else
      match splitOnDot rest with
      | [] => [[c]]
      | g :: gs => (c :: g) :: gs

/-- A dotted-version component as a number (`0` for a malformed
component). -/
def compToNat (cs : List Char) : Nat :=
  if cs ≠ [] ∧ cs.all Char.isDigit then
    cs.foldl (fun n c => n * 10 + (c.toNat - 48)) 0
  else 0

def parseVersion (s : String) : List Nat :=
  (splitOnDot s.data).map compToNat

/-- Lexicographic comparison of parsed version components. -/
def versionLe : List Nat → List Nat → Bool
  | [], _ => true
  | _ :: _, [] => false
  | a :: as, b :: bs => if a < b then true else if b < a then false else versionLe as bs

/-- Modelled from the spec: see `parseVersion`. -/
def is_fw_version_higher (v minimum : String) : Bool :=
  versionLe (parseVersion minimum) (parseVersion v)

/-- What a `connect()` call did: the commands it issued through `send_cmd`
in order, the `rio_version` it recorded, whether it raised
`UnsupportedFeatureError`, whether `_set_connected(True)` ran, and the
arguments the connection callbacks were invoked with. -/
structure ConnectOutcome where
  sent : List String
  rio_version : Option String
  unsupported : Bool
  connected : Bool
  connCalls : List Bool
deriving DecidableEq

/-- `Russound.connect` (`rio.py:234`), parameterized by the configured
minimum version and by the device's reply to the `VERSION` command: record
`rio_version`, gate on `is_fw_version_higher`, raising
`UnsupportedFeatureError` before the watch replay and before
`_set_connected(True)`; on success replay the watch set then mark
connected. -/
def connect (minimum : String) (watched : List String) (versionReply : String) :
    ConnectOutcome :=
  let sent := ["VERSION"]
  if is_fw_version_higher versionReply minimum then
    { sent := sent ++ watched.map (fun d => "WATCH " ++ d ++ " ON"),
      rio_version := some versionReply, unsupported := false,
      connected := true, connCalls := [true] }
  else
    { sent := sent, rio_version := some versionReply, unsupported := true,
      connected := false, connCalls := [] }

/-! ## Helper lemmas -/

theorem retrieve_applyStores_untouched (D K : String) :
    ∀ (writes : List (String × String × String))
      (st : List (String × List (String × String))),
      (∀ e ∈ writes, ¬ (e.1 = D ∧ (pyLower e.2.1) = (pyLower K))) →
      _retrieve_cached_variable (applyStores st writes) D K =
        _retrieve_cached_variable st D K := by
  intro writes
  induction writes with
  | nil => intro st _; rfl
  | cons e rest ih =>
    intro st h
    obtain ⟨d, k, v⟩ := e
    have hrest : ∀ e ∈ rest, ¬ (e.1 = D ∧ (pyLower e.2.1) = (pyLower K)) := by
      intro e he; exact h e (List.mem_cons_of_mem _ he)
    have hhead : ¬ (d = D ∧ (pyLower k) = (pyLower K)) := h (d, k, v) (List.mem_cons_self _ _)
    show _retrieve_cached_variable (applyStores (cacheStore st d k v) rest) D K = _
    rw [ih (cacheStore st d k v) hrest, retrieve_cacheStore]
    have : ¬ (D = d ∧ (pyLower K) = (pyLower k)) := by
      intro hc; exact hhead ⟨hc.1.symm, hc.2.symm⟩
    simp [this]

theorem pyListRemove_eq_none (f : Nat) :
    ∀ l : List Nat, pyListRemove l f = none ↔ f ∉ l := by
  intro l
  induction l with
  | nil => simp [pyListRemove]
  | cons y ys ih =>
    by_cases h : y = f
    · subst h; simp [pyListRemove]
    · have h2 : ¬ f = y := fun he => h he.symm
      cases hys : pyListRemove ys f with
      | none => simp [pyListRemove, h, hys, h2, ← ih, hys]
      | some l' =>
        simp only [pyListRemove, h, if_false, hys, Option.map_some]
        constructor
        · intro hc; exact absurd hc (by simp)
        · intro hc
          exfalso
          have : f ∈ ys := by
            by_contra hn
            rw [← ih] at hn
            rw [hn] at hys
            exact Option.noConfusion hys
          exact hc (List.mem_cons_of_mem _ this)

/-! ## Claim theorems -/

/-- Claim C6 (cache round-trip).  Storing `V` for `(D, K)` and reading
`(D', K')` returns `V` exactly when `D' = D` and the keys agree up to lower
casing (device compared exactly, key case-normalized on both store and
lookup), and otherwise returns whatever was there before; a `(D, K)` never
stored (no write in `writes` touches it) reads back as the uncached signal
`none`; the cached-read accessor returns the supplied default exactly on
the uncached signal; and a stored empty string reads back as `some ""`,
distinct from the uncached signal. -/
theorem rio_C6_cache_round_trip
    (st : List (String × List (String × String))) (D K V D' K' : String)
    (dflt : Option String) (writes : List (String × String × String))
    (hw : ∀ e ∈ writes, ¬ (e.1 = D ∧ (pyLower e.2.1) = (pyLower K))) :
    (_retrieve_cached_variable (cacheStore st D K V) D' K' =
       if D' = D ∧ (pyLower K') = (pyLower K) then some V
       else _retrieve_cached_variable st D' K')
    ∧ _retrieve_cached_variable (cacheStore st D K V) D K = some V
    ∧ _retrieve_cached_variable (applyStores [] writes) D K = none
    ∧ (_retrieve_cached_variable st D' K' = none →
        get_cached_variable st D' K' dflt = dflt)
    ∧ (∀ v, _retrieve_cached_variable st D' K' = some v →
        get_cached_variable st D' K' dflt = some v)
    ∧ _retrieve_cached_variable (cacheStore st D K "") D K = some ""
    ∧ (some "" : Option String) ≠ none := by
  refine ⟨retrieve_cacheStore st D K V D' K', ?_, ?_, ?_, ?_, ?_, by simp⟩
  · rw [retrieve_cacheStore]; simp
  · rw [retrieve_applyStores_untouched D K writes [] hw]; rfl
  · intro h; simp [get_cached_variable, h]
  · intro v h; simp [get_cached_variable, h]
  · rw [retrieve_cacheStore]; simp

/-- Witness for C6: a concrete instantiation — store then read back, case
normalization, the untouched-key frame, default fallback, and a stored
empty string. -/
theorem rio_C6_witness :
    (_retrieve_cached_variable
       (cacheStore [("C[1].Z[1]", [("bass", "2")])] "C[1].Z[1]" "Volume" "10")
       "C[1].Z[1]" "volume" =
       if ("C[1].Z[1]" : String) = "C[1].Z[1]" ∧
          (pyLower ("volume" : String)) = (pyLower ("Volume" : String)) then some "10"
       else _retrieve_cached_variable [("C[1].Z[1]", [("bass", "2")])] "C[1].Z[1]" "volume")
    ∧ _retrieve_cached_variable
        (cacheStore [("C[1].Z[1]", [("bass", "2")])] "C[1].Z[1]" "Volume" "10")
        "C[1].Z[1]" "Volume" = some "10"
    ∧ _retrieve_cached_variable
        (applyStores [] [("C[1].Z[2]", "volume", "3")]) "C[1].Z[1]" "volume" = none
    ∧ (_retrieve_cached_variable [("C[1].Z[1]", [("bass", "2")])] "C[1].Z[1]" "volume" = none →
        get_cached_variable [("C[1].Z[1]", [("bass", "2")])] "C[1].Z[1]" "volume" (some "1") = some "1")
    ∧ (∀ v, _retrieve_cached_variable [("C[1].Z[1]", [("bass", "2")])] "C[1].Z[1]" "volume" = some v →
        get_cached_variable [("C[1].Z[1]", [("bass", "2")])] "C[1].Z[1]" "volume" (some "1") = some v)
    ∧ _retrieve_cached_variable
        (cacheStore [("C[1].Z[1]", [("bass", "2")])] "C[1].Z[1]" "Volume" "")
        "C[1].Z[1]" "Volume" = some ""
    ∧ (some "" : Option String) ≠ none :=
  rio_C6_cache_round_trip [("C[1].Z[1]", [("bass", "2")])] "C[1].Z[1]" "Volume" "10"
    "C[1].Z[1]" "volume" (some "1") [("C[1].Z[2]", "volume", "3")] (by decide)

theorem remove_callback_all_mem (f : Nat) :
    ∀ cbs : List (String × List Nat), (∀ e ∈ cbs, f ∈ e.2) →
      remove_callback cbs f =
        (cbs.map (fun e => (e.1, (pyListRemove e.2 f).getD e.2)), true) := by
  intro cbs
  induction cbs with
  | nil => intro _; rfl
  | cons e rest ih =>
    intro h
    obtain ⟨d, l⟩ := e
    have hl : f ∈ l := h (d, l) (List.mem_cons_self _ _)
    cases hrem : pyListRemove l f with
    | none => exact absurd hl ((pyListRemove_eq_none f l).mp hrem)
    | some l' =>
      have hrest := ih (fun e he => h e (List.mem_cons_of_mem _ he))
      simp [remove_callback, hrem, hrest]

theorem remove_callback_fails (f : Nat) :
    ∀ (pre : List (String × List Nat)) (d : String) (l : List Nat)
      (post : List (String × List Nat)),
      (∀ e ∈ pre, f ∈ e.2) → f ∉ l →
      remove_callback (pre ++ (d, l) :: post) f =
        (pre.map (fun e => (e.1, (pyListRemove e.2 f).getD e.2)) ++ (d, l) :: post,
         false) := by
  intro pre
  induction pre with
  | nil =>
    intro d l post _ hl
    have hrem : pyListRemove l f = none := (pyListRemove_eq_none f l).mpr hl
    simp [remove_callback, hrem]
  | cons e rest ih =>
    intro d l post h hl
    obtain ⟨d0, l0⟩ := e
    have hl0 : f ∈ l0 := h (d0, l0) (List.mem_cons_self _ _)
    cases hrem : pyListRemove l0 f with
    | none => exact absurd hl0 ((pyListRemove_eq_none f l0).mp hrem)
    | some l0' =>
      have hrest := ih d l post (fun e he => h e (List.mem_cons_of_mem _ he)) hl
      simp [remove_callback, hrem, hrest]

/-- Claim C9 (remove_callback semantics).  `remove_callback f` walks every
device's callback list: when every list contains `f`, it removes the first
occurrence of `f` from each and returns normally; as soon as it reaches a
device whose list does not contain `f` it raises `ValueError` (`ok = false`)
— in particular with the lists visited before the failure already mutated
and the failing device and all later devices untouched. -/
theorem rio_C9_remove_callback (f : Nat) :
    (∀ cbs : List (String × List Nat), (∀ e ∈ cbs, f ∈ e.2) →
      remove_callback cbs f =
        (cbs.map (fun e => (e.1, (pyListRemove e.2 f).getD e.2)), true))
    ∧ (∀ (pre : List (String × List Nat)) (d : String) (l : List Nat)
         (post : List (String × List Nat)),
        (∀ e ∈ pre, f ∈ e.2) → f ∉ l →
        remove_callback (pre ++ (d, l) :: post) f =
          (pre.map (fun e => (e.1, (pyListRemove e.2 f).getD e.2)) ++ (d, l) :: post,
           false)) :=
  ⟨remove_callback_all_mem f, remove_callback_fails f⟩

/-- Witness for C9: callback `7` is registered only for device `A`; device
`B` has a different callback, so removal raises `ValueError` after `A`'s
list has already lost `7`, leaving `B` untouched. -/
theorem rio_C9_witness :
    remove_callback ([("A", [7])] ++ ("B", [9]) :: []) 7 =
      ([("A", [7])].map (fun e => (e.1, (pyListRemove e.2 7).getD e.2)) ++
         ("B", [9]) :: [], false) :=
  (rio_C9_remove_callback 7).2 [("A", [7])] "B" [9] [] (by decide) (by decide)

/-- Claim C10 (watch registry ordering).  `unwatch` on a device not in the
watch set raises `KeyError` with the set unchanged and no `WATCH ... OFF`
command issued, while on a watched device it deletes then sends; `watch`
inserts the device into the set and the insertion effect precedes the
`WATCH ... ON` send, so the device is in the set regardless of the
command's fate; and the reconnect replay issues `WATCH ... ON` for every
device in the set. -/
theorem rio_C10_watch_registry (w : List String) (d : String) :
    (d ∉ w → unwatch w d = (some "KeyError", w, []))
    ∧ (d ∈ w → unwatch w d =
        (none, w.erase d,
         [Eff.setDelete d, Eff.cmdSent ("WATCH " ++ d ++ " OFF")]))
    ∧ (watch w d).1 = addWatched w d
    ∧ d ∈ (watch w d).1
    ∧ (watch w d).2 = [Eff.setInsert d, Eff.cmdSent ("WATCH " ++ d ++ " ON")]
    ∧ (∀ d' ∈ w, Eff.cmdSent ("WATCH " ++ d' ++ " ON") ∈ _watch_cached_devices w) := by
  refine ⟨fun h => by simp [unwatch, h], fun h => by simp [unwatch, h], rfl, ?_, rfl, ?_⟩
  · by_cases h : d ∈ w <;> simp [watch, addWatched, h]
  · intro d' hd'
    simp only [_watch_cached_devices, watch, List.mem_flatten, List.mem_map]
    exact ⟨[Eff.setInsert d', Eff.cmdSent ("WATCH " ++ d' ++ " ON")],
      ⟨d', hd', rfl⟩, by simp⟩

/-- Witness for C10: with watch set `{"C[1].Z[1]"}`, unwatching the
unwatched `"S[2]"` raises `KeyError` with no command and no set change;
watching `"S[2]"` leaves it in the set with the insertion before the send;
the replay re-issues `WATCH C[1].Z[1] ON`. -/
theorem rio_C10_witness :
    unwatch ["C[1].Z[1]"] "S[2]" = (some "KeyError", ["C[1].Z[1]"], [])
    ∧ "S[2]" ∈ (watch ["C[1].Z[1]"] "S[2]").1
    ∧ (watch ["C[1].Z[1]"] "S[2]").2 =
        [Eff.setInsert "S[2]", Eff.cmdSent ("WATCH " ++ "S[2]" ++ " ON")]
    ∧ Eff.cmdSent ("WATCH " ++ "C[1].Z[1]" ++ " ON") ∈
        _watch_cached_devices ["C[1].Z[1]"] :=
  ⟨(rio_C10_watch_registry ["C[1].Z[1]"] "S[2]").1 (by decide),
   (rio_C10_watch_registry ["C[1].Z[1]"] "S[2]").2.2.2.1,
   (rio_C10_watch_registry ["C[1].Z[1]"] "S[2]").2.2.2.2.1,
   (rio_C10_watch_registry ["C[1].Z[1]"] "S[2]").2.2.2.2.2 "C[1].Z[1]" (by decide)⟩

/-- Claim C5 (version gate).  When the device's `VERSION` reply is below the
configured minimum, `connect()` raises `UnsupportedFeatureError`: the only
command issued was `VERSION` (no watch replay), `_set_connected(True)`
never ran, and no connection callback was invoked at all. -/
theorem rio_C5_version_gate (minimum : String) (watched : List String)
    (v : String) (h : is_fw_version_higher v minimum = false) :
    connect minimum watched v =
      { sent := ["VERSION"], rio_version := some v, unsupported := true,
        connected := false, connCalls := [] } := by
  simp [connect, h]

/-- Witness for C5: a device reporting `1.01.00` against minimum `1.02.00`
fails the gate with no watch replay and no connected transition. -/
theorem rio_C5_witness :
    connect "1.02.00" ["C[1].Z[1]"] "1.01.00" =
      { sent := ["VERSION"], rio_version := some "1.01.00", unsupported := true,
        connected := false, connCalls := [] } :=
  rio_C5_version_gate "1.02.00" ["C[1].Z[1]"] "1.01.00" (by decide)

/-! ## Ordering invariants of the session loop -/

/-- The slot ids written to the transport, in write order. -/
def writtenSlots (s : LoopState) : List Nat := s.written.map Prod.snd

/-- The slot ids resolved, in resolution order. -/
def resolvedSlots (s : LoopState) : List Nat := s.resolved.map Prod.fst

/-- The slot ids still queued, in FIFO order. -/
def queueSlots (s : LoopState) : List Nat := s.queue.map Prod.snd

/-- The slot ids of every command ever enqueued, in enqueue order. -/
def enqueuedSlots (s : LoopState) : List Nat := s.enqueued.map Prod.snd

/-- The in-flight slot (written but not resolved) of a control phase, as a
list of length at most one. -/
def pendingOf : Phase → List Nat
  | .outer => []
  | .inner slot => [slot]
  | .dead none => []
  | .dead (some slot) => [slot]

/-- The ordering invariant of the session loop: commands are written in
exactly the order they were enqueued (the write log is a prefix of the
enqueue log, the rest still queued in order), every written command except
possibly the single in-flight one has been resolved, in write order, and
at most one command is in flight. -/
def loopOrderInv (s : LoopState) : Prop :=
  enqueuedSlots s = writtenSlots s ++ queueSlots s ∧
  writtenSlots s = resolvedSlots s ++ pendingOf s.phase ∧
  (pendingOf s.phase).length ≤ 1

theorem handleLineOuter_fields (s : LoopState) :
    (handleLineOuter s).written = s.written ∧
    (handleLineOuter s).resolved = s.resolved ∧
    (handleLineOuter s).queue = s.queue ∧
    (handleLineOuter s).enqueued = s.enqueued ∧
    ((handleLineOuter s).phase = s.phase ∨
      (handleLineOuter s).phase = Phase.dead none) := by
  unfold handleLineOuter
  cases hpr : _process_response s.rs (readLine s).1 <;>
    simp [hpr, dieCrash, setConnected]

theorem handleLineInner_fields (s : LoopState) (slot : Nat) :
    (handleLineInner s slot).written = s.written ∧
    (handleLineInner s slot).queue = s.queue ∧
    (handleLineInner s slot).enqueued = s.enqueued ∧
    (((handleLineInner s slot).resolved = s.resolved ∧
        ((handleLineInner s slot).phase = s.phase ∨
         (handleLineInner s slot).phase = Phase.dead (some slot))) ∨
     (∃ r, (handleLineInner s slot).resolved = s.resolved ++ [(slot, r)] ∧
        (handleLineInner s slot).phase = Phase.outer)) := by
  unfold handleLineInner
  cases hpr : _process_response s.rs (readLine s).1 with
  | ok rs' calls ty value =>
    by_cases hty : ty = some 'S' <;> simp [hpr, hty, dieCrash, setConnected]
  | cmdError msg => simp [hpr]
  | crashed e rs' calls => simp [hpr, dieCrash, setConnected]

theorem step_dead (s : LoopState) (c : SChoice) (p : Option Nat)
    (h : s.phase = Phase.dead p) : step s c = s := by
  unfold step; rw [h]

theorem step_outer_put (s : LoopState) (cmd : String) (slot : Nat)
    (h : s.phase = Phase.outer) :
    step s (SChoice.put cmd slot) =
      { s with queue := s.queue ++ [(cmd, slot)],
               enqueued := s.enqueued ++ [(cmd, slot)] } := by
  unfold step; rw [h]

theorem step_outer_cancel (s : LoopState) (h : s.phase = Phase.outer) :
    step s SChoice.cancel = dieCancel s none := by
  unfold step; rw [h]

theorem step_outer_net (s : LoopState) (h : s.phase = Phase.outer) :
    step s SChoice.net = handleLineOuter s := by
  unfold step; rw [h]

theorem step_outer_cmd_nil (s : LoopState) (h : s.phase = Phase.outer)
    (hq : s.queue = []) : step s SChoice.cmd = s := by
  unfold step; rw [h, hq]

theorem step_outer_cmd_cons (s : LoopState) (cmd : String) (slot : Nat)
    (rest : List (String × Nat)) (h : s.phase = Phase.outer)
    (hq : s.queue = (cmd, slot) :: rest) :
    step s SChoice.cmd =
      { s with queue := rest,
               written := s.written ++ [(cmd ++ "\r", slot)],
               phase := Phase.inner slot } := by
  unfold step; rw [h, hq]

theorem step_inner_put (s : LoopState) (slot : Nat) (cmd : String) (slot' : Nat)
    (h : s.phase = Phase.inner slot) :
    step s (SChoice.put cmd slot') =
      { s with queue := s.queue ++ [(cmd, slot')],
               enqueued := s.enqueued ++ [(cmd, slot')] } := by
  unfold step; rw [h]

theorem step_inner_cancel (s : LoopState) (slot : Nat)
    (h : s.phase = Phase.inner slot) :
    step s SChoice.cancel = dieCancel s (some slot) := by
  unfold step; rw [h]

theorem step_inner_net (s : LoopState) (slot : Nat)
    (h : s.phase = Phase.inner slot) :
    step s SChoice.net = handleLineInner s slot := by
  unfold step; rw [h]

theorem step_inner_cmd (s : LoopState) (slot : Nat)
    (h : s.phase = Phase.inner slot) : step s SChoice.cmd = s := by
  unfold step; rw [h]

theorem loopOrderInv_step (s : LoopState) (c : SChoice) (h : loopOrderInv s) :
    loopOrderInv (step s c) := by
  obtain ⟨h1, h2, h3⟩ := h
  cases hph : s.phase with
  | dead p =>
    rw [step_dead s c p hph]; exact ⟨h1, h2, h3⟩
  | outer =>
    rw [hph] at h2 h3
    cases c with
    | put cmd slot =>
      rw [step_outer_put s cmd slot hph]
      refine ⟨?_, ?_, ?_⟩
      · simp only [enqueuedSlots, queueSlots, writtenSlots, List.map_append]
        simp only [enqueuedSlots, queueSlots, writtenSlots] at h1
        rw [h1, List.append_assoc]
      · simpa [writtenSlots, resolvedSlots, pendingOf, hph] using h2
      · simp [pendingOf, hph]
    | cancel =>
      rw [step_outer_cancel s hph]
      refine ⟨?_, ?_, ?_⟩
      · simpa [dieCancel, setConnected, enqueuedSlots, queueSlots, writtenSlots] using h1
      · simpa [dieCancel, setConnected, writtenSlots, resolvedSlots, pendingOf] using h2
      · simp [dieCancel, setConnected, pendingOf]
    | net =>
      rw [step_outer_net s hph]
      obtain ⟨hw, hr, hq, he, hp⟩ := handleLineOuter_fields s
      refine ⟨?_, ?_, ?_⟩
      · simpa [enqueuedSlots, queueSlots, writtenSlots, hw, hq, he] using h1
      · rcases hp with hp | hp <;>
          simpa [writtenSlots, resolvedSlots, pendingOf, hw, hr, hp, hph] using h2
      · rcases hp with hp | hp <;> simp [pendingOf, hp, hph]
    | cmd =>
      cases hq : s.queue with
      | nil =>
        rw [step_outer_cmd_nil s hph hq]
        exact ⟨h1, by rw [hph]; exact h2, by rw [hph]; exact h3⟩
      | cons p rest =>
        obtain ⟨cmd, slot⟩ := p
        rw [step_outer_cmd_cons s cmd slot rest hph hq]
        refine ⟨?_, ?_, ?_⟩
        · simp only [enqueuedSlots, queueSlots, writtenSlots, List.map_append,
            List.map_cons, List.map_nil]
          simp only [enqueuedSlots, queueSlots, writtenSlots, hq, List.map_cons] at h1
          rw [h1, List.append_assoc]
          rfl
        · simp only [writtenSlots, resolvedSlots, pendingOf, List.map_append,
            List.map_cons, List.map_nil]
          simp only [writtenSlots, resolvedSlots, pendingOf, List.append_nil] at h2
          rw [h2]
        · simp [pendingOf]
  | inner slot =>
    rw [hph] at h2 h3
    cases c with
    | put cmd slot' =>
      rw [step_inner_put s slot cmd slot' hph]
      refine ⟨?_, ?_, ?_⟩
      · simp only [enqueuedSlots, queueSlots, writtenSlots, List.map_append]
        simp only [enqueuedSlots, queueSlots, writtenSlots] at h1
        rw [h1, List.append_assoc]
      · simpa [writtenSlots, resolvedSlots, pendingOf, hph] using h2
      · simp [pendingOf, hph]
    | cancel =>
      rw [step_inner_cancel s slot hph]
      refine ⟨?_, ?_, ?_⟩
      · simpa [dieCancel, setConnected, enqueuedSlots, queueSlots, writtenSlots] using h1
      · simpa [dieCancel, setConnected, writtenSlots, resolvedSlots, pendingOf] using h2
      · simp [dieCancel, setConnected, pendingOf]
    | net =>
      rw [step_inner_net s slot hph]
      obtain ⟨hw, hq2, he, hres⟩ := handleLineInner_fields s slot
      refine ⟨?_, ?_, ?_⟩
      · rcases hres with ⟨hr, hp | hp⟩ | ⟨r, hr, hp⟩ <;>
          simpa [enqueuedSlots, queueSlots, writtenSlots, hw, hq2, he] using h1
      · rcases hres with ⟨hr, hp | hp⟩ | ⟨r, hr, hp⟩
        · rw [hph] at hp
          simpa [writtenSlots, resolvedSlots, pendingOf, hw, hr, hp] using h2
        · simpa [writtenSlots, resolvedSlots, pendingOf, hw, hr, hp] using h2
        · simp only [writtenSlots, resolvedSlots, pendingOf, hw, hr, hp,
            List.map_append, List.map_cons, List.map_nil, List.append_nil]
          simp only [writtenSlots, resolvedSlots, pendingOf] at h2
          rw [h2]
      · rcases hres with ⟨hr, hp | hp⟩ | ⟨r, hr, hp⟩
        · rw [hph] at hp; simp [pendingOf, hp]
        · simp [pendingOf, hp]
        · simp [pendingOf, hp]
    | cmd =>
      rw [step_inner_cmd s slot hph]
      exact ⟨h1, by rw [hph]; exact h2, by rw [hph]; exact h3⟩

theorem loopOrderInv_run (sched : List SChoice) :
    ∀ s : LoopState, loopOrderInv s → loopOrderInv (runLoop s sched) := by
  induction sched with
  | nil => intro s h; exact h
  | cons c cs ih => intro s h; exact ih (step s c) (loopOrderInv_step s c h)

/-- Claim C2 (FIFO, one in flight).  In every run of the session loop from a
fresh state — over every schedule of reader completions, queue
completions, concurrent `send_cmd` enqueues and cancellation — commands
are written to the transport in exactly the order they were enqueued, every
written command except possibly the single in-flight one has had its result
slot resolved, in write order, and at most one command is ever in flight
(written but unresolved).  Since the schedule is universally quantified,
the invariant holds at every point of every run; in particular a later
command's write is only attempted once every earlier command's slot was
resolved. -/
theorem rio_C2_fifo (rs : RState) (q : List (String × Nat)) (input : List Line)
    (sched : List SChoice) :
    enqueuedSlots (runLoop (initState rs q input) sched) =
      writtenSlots (runLoop (initState rs q input) sched) ++
      queueSlots (runLoop (initState rs q input) sched) ∧
    writtenSlots (runLoop (initState rs q input) sched) =
      resolvedSlots (runLoop (initState rs q input) sched) ++
      pendingOf (runLoop (initState rs q input) sched).phase ∧
    (pendingOf (runLoop (initState rs q input) sched).phase).length ≤ 1 :=
  loopOrderInv_run sched (initState rs q input)
    ⟨rfl, rfl, by simp [initState, pendingOf]⟩

/-- An empty `Russound` state, as right after `__init__` (`rio.py:47-66`)
with the connection marked up. -/
def rs0 : RState :=
  { state := [], callbacks := [], connection_callbacks := [], controllers := [],
    sources := [], watched := [], connected := true, connection_started := true }

/-- Claim C3, settled as a code bug (loop cancellation leaves the in-flight
slot unresolved, refuting the claim).  When the loop is cancelled while a command is in
flight, the cancellation path (`rio.py:175-193`) cancels only the
queue-get, readline and keep-alive futures; the in-flight command's future
is never resolved, the queued commands' futures are likewise never
resolved, and the dead loop absorbs every further event — so a caller
awaiting `send_cmd` hangs forever, contrary to the claim that the slot is
resolved with a cancellation failure. -/
theorem rio_C3_cancel_unresolved (s : LoopState) (slot : Nat)
    (h : s.phase = Phase.inner slot) :
    (step s SChoice.cancel).resolved = s.resolved ∧
    (step s SChoice.cancel).phase = Phase.dead (some slot) ∧
    (step s SChoice.cancel).written = s.written ∧
    (∀ c', step (step s SChoice.cancel) c' = step s SChoice.cancel) := by
  rw [step_inner_cancel s slot h]
  refine ⟨rfl, rfl, rfl, fun c' => ?_⟩
  exact step_dead _ c' (some slot) rfl

/-- Witness for C3: `close()` cancels the loop right after the command
`VERSION` (slot `0`) was written and before any reply: the slot is never
resolved and the loop is dead. -/
theorem rio_C3_witness :
    (step (step (initState { rs0 with connection_callbacks := [5] }
          [("VERSION", 0)] []) SChoice.cmd) SChoice.cancel).resolved =
      (step (initState { rs0 with connection_callbacks := [5] }
          [("VERSION", 0)] []) SChoice.cmd).resolved ∧
    (step (step (initState { rs0 with connection_callbacks := [5] }
          [("VERSION", 0)] []) SChoice.cmd) SChoice.cancel).phase =
      Phase.dead (some 0) ∧
    (step (step (initState { rs0 with connection_callbacks := [5] }
          [("VERSION", 0)] []) SChoice.cmd) SChoice.cancel).written =
      (step (initState { rs0 with connection_callbacks := [5] }
          [("VERSION", 0)] []) SChoice.cmd).written ∧
    (∀ c', step (step (step (initState { rs0 with connection_callbacks := [5] }
          [("VERSION", 0)] []) SChoice.cmd) SChoice.cancel) c' =
      step (step (initState { rs0 with connection_callbacks := [5] }
          [("VERSION", 0)] []) SChoice.cmd) SChoice.cancel) :=
  rio_C3_cancel_unresolved _ 0 (by decide)

theorem step_net_eof (s : LoopState) (h : s.input = [])
    (hp : s.phase = Phase.outer ∨ ∃ k, s.phase = Phase.inner k) :
    step s SChoice.net = s := by
  rcases hp with hp | ⟨k, hp⟩
  · rw [step_outer_net s hp]
    obtain ⟨rs, queue, enq, input, written, resolved, trace, connTrace, phase⟩ := s
    simp only at h hp
    subst h; subst hp
    simp [handleLineOuter, readLine, _process_response]
  · rw [step_inner_net s k hp]
    obtain ⟨rs, queue, enq, input, written, resolved, trace, connTrace, phase⟩ := s
    simp only at h hp
    subst h; subst hp
    simp [handleLineInner, readLine, _process_response]

/-- Claim C4, settled as a code bug (an ended stream never aborts the loop,
refuting the claim).
Once the transport reaches end-of-stream, every `readline` returns an empty
line; `_process_response` treats it as `(None, None)` (`rio.py:102-103`)
and the loop immediately re-arms the read, both in the outer race and in
the reply sub-loop.  Any number of such reads leaves the loop state
completely unchanged: the loop never aborts, never marks the connection
Disconnected, never fires a connection callback, and never triggers the
reconnect policy, contrary to the claim. -/
theorem rio_C4_eof_loop_spins (s : LoopState) (n : Nat) (h : s.input = [])
    (hp : s.phase = Phase.outer ∨ ∃ k, s.phase = Phase.inner k) :
    runLoop s (List.replicate n SChoice.net) = s := by
  induction n with
  | zero => rfl
  | succ n ih =>
    rw [List.replicate_succ]
    show runLoop (step s SChoice.net) _ = s
    rw [step_net_eof s h hp]
    exact ih

/-- Witness for C4: a fresh session whose stream is already at
end-of-stream spins through five reads with no observable change at all. -/
theorem rio_C4_witness :
    runLoop (initState rs0 [] []) (List.replicate 5 SChoice.net) =
      initState rs0 [] [] :=
  rio_C4_eof_loop_spins (initState rs0 [] []) 5 rfl (Or.inl rfl)

/-! ## Source-to-zone fan-out theorems -/

/-- The state right after the cache write of `_store_cached_variable`
(`rio.py:84-86`), against which the fan-out resolves current sources. -/
def storedState (rs : RState) (device_str key value : String) : RState :=
  { rs with state := cacheStore rs.state device_str key value }

/-- Whether resolving a zone's current source succeeds (no `ValueError`
from `int(...)`, no `KeyError` from the `sources` dict). -/
def fetchOk (rs : RState) (z : Zone) : Bool :=
  match fetch_current_source rs z with
  | .ok _ => true
  | .error _ => false

/-- The calls the fan-out loop makes when every zone's current source
resolves: for each zone in visit order whose current source is the stored
device, that zone's callbacks in registration order. -/
def fanoutCalls (rs : RState) (device_str k value : String) :
    List Zone → List CbCall
  | [] => []
  | z :: rest =>
    (match fetch_current_source rs z with
     | .ok src =>
       if src.device_str = device_str then
         (dictGetD rs.callbacks z.device_str []).map
           (fun c => CbCall.mk c device_str k value)
       else []
     | .error _ => []) ++ fanoutCalls rs device_str k value rest

theorem zoneFanout_of_fetchOk (rs : RState) (d k v : String) :
    ∀ zs : List Zone, (∀ z ∈ zs, fetchOk rs z = true) →
      zoneFanout rs d k v zs = .ok (fanoutCalls rs d k v zs) := by
  intro zs
  induction zs with
  | nil => intro _; rfl
  | cons z rest ih =>
    intro h
    have hz : fetchOk rs z = true := h z (List.mem_cons_self _ _)
    have hrest := ih (fun z' hz' => h z' (List.mem_cons_of_mem _ hz'))
    cases hfc : fetch_current_source rs z with
    | error e => rw [fetchOk, hfc] at hz; exact Bool.noConfusion hz
    | ok src =>
      simp only [zoneFanout, fanoutCalls, hfc, hrest]

theorem mem_fanoutCalls (rs : RState) (d k v : String) (z : Zone) (src : Source)
    (c : Nat) :
    ∀ zs : List Zone, z ∈ zs → fetch_current_source rs z = Except.ok src →
      src.device_str = d → c ∈ dictGetD rs.callbacks z.device_str [] →
      CbCall.mk c d k v ∈ fanoutCalls rs d k v zs := by
  intro zs
  induction zs with
  | nil => intro h; exact absurd h (List.not_mem_nil z)
  | cons z0 rest ih =>
    intro hmem hfc hdev hc
    rcases List.mem_cons.mp hmem with hz | hz
    · subst hz
      simp only [fanoutCalls, hfc, hdev, if_pos rfl, List.mem_append]
      exact Or.inl (List.mem_map.mpr ⟨c, hc, rfl⟩)
    · simp only [fanoutCalls, List.mem_append]
      exact Or.inr (ih hz hfc hdev hc)

theorem pyFirstChar_source (n : Int) : pyFirstChar (source_device_str n) = 'S' := by
  unfold pyFirstChar source_device_str
  rw [String.data_append, String.data_append]
  rfl

/-- Claim C7, amended (source-to-zone fan-out).  Provided every known
zone's current source resolves against the post-write state (its cached
`currentSource`, defaulting to `"1"`, parses as an integer present in the
`sources` dict), a store of `V` under source device `S` and variable `K`
returns normally: the value is written first (and is visible in the
returned state), then the callbacks registered for `S` fire in
registration order with `(S, lower-cased K, V)`, followed by the zone
fan-out in zone visit order; every callback registered for a zone whose
current source is `S` is invoked with the same arguments. -/
theorem rio_C7_fanout (rs : RState) (source_id : Int) (key value : String)
    (hok : ∀ z ∈ allZones (storedState rs (source_device_str source_id) key value),
      fetchOk (storedState rs (source_device_str source_id) key value) z = true) :
    _store_cached_variable rs (source_device_str source_id) key value =
      StoreResult.ok (storedState rs (source_device_str source_id) key value)
        ((dictGetD rs.callbacks (source_device_str source_id) []).map
           (fun c => CbCall.mk c (source_device_str source_id) (pyLower key) value)
         ++ fanoutCalls (storedState rs (source_device_str source_id) key value)
              (source_device_str source_id) (pyLower key) value
              (allZones (storedState rs (source_device_str source_id) key value)))
    ∧ _retrieve_cached_variable
        (storedState rs (source_device_str source_id) key value).state
        (source_device_str source_id) key = some value
    ∧ (∀ z ∈ allZones (storedState rs (source_device_str source_id) key value),
        ∀ src, fetch_current_source
            (storedState rs (source_device_str source_id) key value) z =
            Except.ok src →
          src.device_str = source_device_str source_id →
          ∀ c ∈ dictGetD rs.callbacks z.device_str [],
            CbCall.mk c (source_device_str source_id) (pyLower key) value ∈
              fanoutCalls (storedState rs (source_device_str source_id) key value)
                (source_device_str source_id) (pyLower key) value
                (allZones (storedState rs (source_device_str source_id) key value))) := by
  refine ⟨?_, ?_, ?_⟩
  · unfold _store_cached_variable
    rw [pyFirstChar_source, if_pos rfl]
    simp only [storedState] at hok ⊢
    rw [zoneFanout_of_fetchOk _ _ _ _ _ hok]
  · rw [show (storedState rs (source_device_str source_id) key value).state =
        cacheStore rs.state (source_device_str source_id) key value from rfl,
      retrieve_cacheStore]
    simp
  · intro z hz src hfc hdev c hc
    exact mem_fanoutCalls _ _ _ _ z src c _ hz hfc hdev hc

/-- Concrete state for the C7 witness: one controller with one zone whose
cached `currentSource` is `"1"`, source `1` known, a callback `3` on the
zone and a callback `4` on the source. -/
def rsW7 : RState :=
  { state := [("C[1].Z[1]", [("currentsource", "1")])],
    callbacks := [("C[1].Z[1]", [3]), ("S[1]", [4])],
    connection_callbacks := [],
    controllers := [(1, ⟨1, [(1, ⟨1, 1, "Z"⟩)]⟩)],
    sources := [(1, ⟨1, "Src"⟩)],
    watched := [], connected := true, connection_started := true }

/-- Witness for C7: storing `songName = "Hey"` on source `1` fires the
source's own callback `4` first, then zone `C[1].Z[1]`'s callback `3`,
both with `("S[1]", "songname", "Hey")`, after the value is written. -/
theorem rio_C7_witness :
    (∀ z ∈ allZones (storedState rsW7 (source_device_str 1) "songName" "Hey"),
      fetchOk (storedState rsW7 (source_device_str 1) "songName" "Hey") z = true) ∧
    _store_cached_variable rsW7 (source_device_str 1) "songName" "Hey" =
      StoreResult.ok (storedState rsW7 (source_device_str 1) "songName" "Hey")
        [CbCall.mk 4 "S[1]" "songname" "Hey", CbCall.mk 3 "S[1]" "songname" "Hey"] :=
  ⟨by decide, by
    rw [(rio_C7_fanout rsW7 1 "songName" "Hey" (by decide)).1]
    decide⟩

/-- Concrete state for the C7 counterexample: zone `C[1].Z[1]` has cached
`currentSource` `"7"` but no source `7` exists; zone `C[1].Z[2]` has cached
`currentSource` `"1"`, which is source `1`'s id, and callback `0`
registered. -/
def rs7c : RState :=
  { state := [("C[1].Z[1]", [("currentsource", "7")]),
              ("C[1].Z[2]", [("currentsource", "1")])],
    callbacks := [("C[1].Z[2]", [0])],
    connection_callbacks := [],
    controllers := [(1, ⟨1, [(1, ⟨1, 1, "Za"⟩), (2, ⟨1, 2, "Zb"⟩)]⟩)],
    sources := [(1, ⟨1, "Src"⟩)],
    watched := [], connected := true, connection_started := true }

/-- Counterexample for C7, refuting the claim as stated.  Zone `C[1].Z[2]`
is known, its cached `currentSource` equals source `1`'s id, and callback
`0` is registered for it — yet storing `songName = "Hey"` on source `1`
invokes no callback at all: the fan-out loop hits zone `C[1].Z[1]` first,
whose cached current source `7` is not in the `sources` dict, so
`fetch_current_source` raises `KeyError` (`rio.py:515`) and the store
aborts before ever reaching `C[1].Z[2]`. -/
theorem rio_C7_counterexample :
    Zone.current_source (storedState rs7c (source_device_str 1) "songName" "Hey")
      ⟨1, 2, "Zb"⟩ = "1"
    ∧ dictGet rs7c.callbacks (Zone.device_str ⟨1, 2, "Zb"⟩) = some [0]
    ∧ dictIntGet rs7c.sources 1 = some ⟨1, "Src"⟩
    ∧ _store_cached_variable rs7c (source_device_str 1) "songName" "Hey" =
        StoreResult.err PyErr.keyError
          (storedState rs7c (source_device_str 1) "songName" "Hey") [] := by
  refine ⟨by decide, by decide, by decide, by decide⟩


/-! ## Response-parser contract theorems -/

/-- Claim C8, amended (response classification).  For every decoded line:
a line whose tag is `E` yields the error signal carrying the payload
message, with nothing stored; otherwise, a payload matching an addressed
pattern stores the Event and the line additionally yields the `(tag, value)`
result — so an addressed line whose tag is `S` both stores the Event and
counts as a Success (the outcomes are not mutually exclusive); a payload
matching the bare-value shape yields `(tag, value_only)` with nothing
stored; a payload matching no known shape yields Unparsed — tag preserved,
no value, nothing stored, not fatal; and a blank line yields nothing. -/
theorem rio_C8_classification (rs : RState) (ty : Char) (payload : String)
    (m : Option Match) :
    (ty = 'E' →
      _process_response rs (Line.mk ty payload m) = ProcResult.cmdError payload)
    ∧ (ty ≠ 'E' → m = none →
        _process_response rs (Line.mk ty payload m) =
          ProcResult.ok rs [] (some ty) none)
    ∧ (∀ sid var value rs' calls, ty ≠ 'E' →
        m = some (Match.sourceAddr sid var value) →
        _store_cached_variable rs (source_device_str sid) var value =
          StoreResult.ok rs' calls →
        _process_response rs (Line.mk ty payload m) =
          ProcResult.ok rs' calls (some ty)
            (if value = "" then none else some value))
    ∧ (∀ cid zid var value rs' calls, ty ≠ 'E' →
        m = some (Match.zoneAddr cid zid var value) →
        _store_cached_variable rs (zone_device_str cid zid) var value =
          StoreResult.ok rs' calls →
        _process_response rs (Line.mk ty payload m) =
          ProcResult.ok rs' calls (some ty)
            (if value = "" then none else some value))
    ∧ (∀ v, ty ≠ 'E' → m = some (Match.bare v) →
        _process_response rs (Line.mk ty payload m) =
          ProcResult.ok rs [] (some ty) (some v))
    ∧ _process_response rs Line.blank = ProcResult.ok rs [] none none := by
  refine ⟨?_, ?_, ?_, ?_, ?_, rfl⟩
  · intro h; subst h; rfl
  · intro h hm; subst hm; simp [_process_response, h]
  · intro sid var value rs' calls h hm hst
    subst hm
    simp [_process_response, h, hst, pyOr]
  · intro cid zid var value rs' calls h hm hst
    subst hm
    simp [_process_response, h, hst, pyOr]
  · intro v h hm
    subst hm
    simp [_process_response, h, pyOr]

/-- Witness for C8: an `E` line raises the error with the device message;
an unmatched line is Unparsed with its tag preserved, no value and no state
change; a bare `S` reply yields the success value. -/
theorem rio_C8_witness :
    _process_response rs0 (Line.mk 'E' "Invalid argument" none) =
      ProcResult.cmdError "Invalid argument"
    ∧ _process_response rs0 (Line.mk 'N' "garbage" none) =
        ProcResult.ok rs0 [] (some 'N') none
    ∧ _process_response rs0
        (Line.mk 'S' "\"LivingRoom\"" (some (Match.bare "LivingRoom"))) =
        ProcResult.ok rs0 [] (some 'S') (some "LivingRoom") :=
  ⟨(rio_C8_classification rs0 'E' "Invalid argument" none).1 rfl,
   (rio_C8_classification rs0 'N' "garbage" none).2.1 (by decide) rfl,
   (rio_C8_classification rs0 'S' "\"LivingRoom\""
      (some (Match.bare "LivingRoom"))).2.2.2.2.1 "LivingRoom" (by decide) rfl⟩

/-- Counterexample for C8, refuting the exactly-one-of classification as
stated.  A single `S`-tagged line with a source-addressed payload is both
a Success — the returned pair is `(S, the value)` — and an Event: the
addressed variable is stored into the (previously empty) cache.  The four
outcomes of the claim are therefore not mutually exclusive. -/
theorem rio_C8_counterexample :
    _process_response rs0
      (Line.mk 'S' "S[2].name=\"X\"" (some (Match.sourceAddr 2 "name" "X"))) =
      ProcResult.ok (storedState rs0 (source_device_str 2) "name" "X") []
        (some 'S') (some "X")
    ∧ _retrieve_cached_variable
        (storedState rs0 (source_device_str 2) "name" "X").state "S[2]" "name" =
        some "X"
    ∧ rs0.state = [] := by
  refine ⟨by decide, by decide, rfl⟩


/-! ## Command/reply correlation theorems -/

/-- The state change and callback invocations one processed line makes
(nothing for an `E` line, whose `CommandError` is raised before any
store). -/
def applyLine (rs : RState) (l : Line) : RState × List CbCall :=
  match _process_response rs l with
  | .ok rs' calls _ _ => (rs', calls)
  | _ => (rs, [])

/-- The cumulative state change and callback trace of a sequence of
processed lines. -/
def applyLines (rs : RState) : List Line → RState × List CbCall
  | [] => (rs, [])
  | l :: ls =>
    ((applyLines (applyLine rs l).1 ls).1,
     (applyLine rs l).2 ++ (applyLines (applyLine rs l).1 ls).2)

/-- The lines are all non-terminal for the reply sub-loop and none of them
crashes it: each processes to `ok` with a tag other than `S`. -/
def innerStepsOk (rs : RState) : List Line → Bool
  | [] => true
  | l :: rest =>
    match _process_response rs l with
    | .ok rs' _ ty _ => if ty = some 'S' then false else innerStepsOk rs' rest
    | _ => false

/-- The resolution a line produces when it terminates the reply sub-loop:
`SlotRes.value` for an `S` tag, `SlotRes.exn` for an `E` line; `none` when
the line is not terminal (or crashes the loop). -/
def terminalRes (rs : RState) (l : Line) : Option SlotRes :=
  match _process_response rs l with
  | .ok _ _ ty v => if ty = some 'S' then some (SlotRes.value v) else none
  | .cmdError msg => some (SlotRes.exn msg)
  | .crashed _ _ _ => none

/-- Claim C1, amended (per-command correlation).  With a command in flight
(phase `inner slot`) and the remaining input consisting of non-terminal
lines `pre`, a terminal line `term`, and anything after, provided no line
in the window crashes response processing (no fan-out exception — in
particular every source-addressed Event finds each zone's current source),
the reply sub-loop consumes exactly `pre ++ [term]`: every Event in the
window is applied to the cache (`applyLines`), with its callbacks, before
resolution; the slot is resolved exactly once — appended as the single new
entry, with the `S` line's success value or the `E` line's device message
(`terminalRes`); and the loop returns to the outer phase to serve the next
queued command.  Nothing else changes: the queue, the write log and
previous resolutions are untouched. -/
theorem rio_C1_resolution :
    ∀ (pre : List Line) (s : LoopState) (slot : Nat) (term : Line)
      (post : List Line) (r : SlotRes),
      s.phase = Phase.inner slot →
      s.input = pre ++ term :: post →
      innerStepsOk s.rs pre = true →
      terminalRes (applyLines s.rs pre).1 term = some r →
      runLoop s (List.replicate (pre.length + 1) SChoice.net) =
        { s with rs := (applyLines s.rs (pre ++ [term])).1,
                 input := post,
                 resolved := s.resolved ++ [(slot, r)],
                 trace := s.trace ++ (applyLines s.rs (pre ++ [term])).2,
                 phase := Phase.outer } := by
  intro pre
  induction pre with
  | nil =>
    intro s slot term post r hph hin hok hterm
    show runLoop (step s SChoice.net) [] = _
    rw [step_inner_net s slot hph]
    show handleLineInner s slot = _
    simp only [applyLines, terminalRes] at hterm
    cases hpr : _process_response s.rs term with
    | ok rs' calls ty v =>
      simp only [hpr] at hterm
      by_cases hty : ty = some 'S'
      · simp only [hty, if_pos, Option.some.injEq] at hterm
        subst hterm
        obtain ⟨srs, squ, sen, sin, swr, sre, str, sco, sph⟩ := s
        dsimp only at hph hin hpr ⊢
        subst hph; subst hin
        simp [handleLineInner, readLine, hpr, hty, applyLines, applyLine]
      · simp [hty] at hterm
    | cmdError msg =>
      simp only [hpr, Option.some.injEq] at hterm
      subst hterm
      obtain ⟨srs, squ, sen, sin, swr, sre, str, sco, sph⟩ := s
      dsimp only at hph hin hpr ⊢
      subst hph; subst hin
      simp [handleLineInner, readLine, hpr, applyLines, applyLine]
    | crashed e rs' calls =>
      simp [hpr] at hterm
  | cons l pre ih =>
    intro s slot term post r hph hin hok hterm
    simp only [innerStepsOk] at hok
    cases hpr : _process_response s.rs l with
    | ok rs' calls ty v =>
      simp only [hpr] at hok
      by_cases hty : ty = some 'S'
      · simp [hty] at hok
      · rw [if_neg hty] at hok
        show runLoop (step s SChoice.net)
          (List.replicate (pre.length + 1) SChoice.net) = _
        rw [step_inner_net s slot hph]
        have hs' : handleLineInner s slot =
            { s with rs := rs', trace := s.trace ++ calls,
                     input := pre ++ term :: post } := by
          simp [handleLineInner, readLine, hin, hpr, hty]
        rw [hs']
        have happ1 : (applyLines s.rs (l :: pre)).1 = (applyLines rs' pre).1 := by
          simp [applyLines, applyLine, hpr]
        rw [happ1] at hterm
        have hres := ih ⟨rs', s.queue, s.enqueued, pre ++ term :: post,
          s.written, s.resolved, s.trace ++ calls, s.connTrace, s.phase⟩
          slot term post r hph rfl hok hterm
        rw [hres]
        simp [applyLines, applyLine, hpr, List.append_assoc]
    | cmdError msg =>
      simp [hpr] at hok
    | crashed e rs' calls =>
      simp [hpr] at hok

/-- A push line carrying a zone-addressed variable update. -/
def pushLineW : Line :=
  Line.mk 'N' "C[1].Z[1].volume=\"10\"" (some (Match.zoneAddr 1 1 "volume" "10"))

/-- A bare success reply line. -/
def termLineW : Line :=
  Line.mk 'S' "\"LivingRoom\"" (some (Match.bare "LivingRoom"))

/-- Loop state with command slot `0` in flight and a push line interleaved
before its success reply. -/
def sW : LoopState :=
  { rs := rs0, queue := [], enqueued := [("GET C[1].Z[1].name", 0)],
    input := [pushLineW, termLineW], written := [("GET C[1].Z[1].name\r", 0)],
    resolved := [], trace := [], connTrace := [], phase := Phase.inner 0 }

/-- Witness for C1: with `GET C[1].Z[1].name` in flight, a pushed
`volume` Event interleaved before the `S "LivingRoom"` reply is stored in
the cache, and the slot resolves exactly once with `"LivingRoom"`, the
loop returning to the outer phase. -/
theorem rio_C1_witness :
    innerStepsOk sW.rs [pushLineW] = true ∧
    terminalRes (applyLines sW.rs [pushLineW]).1 termLineW =
      some (SlotRes.value (some "LivingRoom")) ∧
    runLoop sW (List.replicate 2 SChoice.net) =
      { sW with rs := (applyLines sW.rs ([pushLineW] ++ [termLineW])).1,
                input := [],
                resolved := sW.resolved ++ [(0, SlotRes.value (some "LivingRoom"))],
                trace := sW.trace ++ (applyLines sW.rs ([pushLineW] ++ [termLineW])).2,
                phase := Phase.outer } :=
  ⟨by decide, by decide,
   rio_C1_resolution [pushLineW] sW 0 termLineW []
     (SlotRes.value (some "LivingRoom")) rfl rfl (by decide) (by decide)⟩

/-- A push line whose source-addressed store crashes the fan-out: source
`1` is not in the `sources` dict while a zone exists (default current
source `"1"`). -/
def crashLineW : Line :=
  Line.mk 'N' "S[1].name=\"x\"" (some (Match.sourceAddr 1 "name" "x"))

/-- State with one known zone and an empty `sources` dict. -/
def sCE : LoopState :=
  initState
    { state := [], callbacks := [], connection_callbacks := [],
      controllers := [(1, ⟨1, [(1, ⟨1, 1, "Z"⟩)]⟩)], sources := [],
      watched := [], connected := true, connection_started := true }
    [("GET S[1].name", 0)] [crashLineW, termLineW]

/-- Counterexample for C1, refuting the claim as stated.  The command
`GET S[1].name` (slot `0`) is written, and the interleaving that follows it
is a source-addressed Event line followed by an `S` reply line — yet the
slot is never resolved: storing the Event raises `KeyError` in the zone
fan-out (`rio.py:515`), which is not a `CommandError`, so it escapes the
reply sub-loop, kills the whole session loop before the `S` line is even
read, and leaves the result slot unresolved forever. -/
theorem rio_C1_counterexample :
    (runLoop sCE [SChoice.cmd, SChoice.net, SChoice.net]).written =
      [("GET S[1].name\r", 0)]
    ∧ (runLoop sCE [SChoice.cmd, SChoice.net, SChoice.net]).resolved = []
    ∧ (runLoop sCE [SChoice.cmd, SChoice.net, SChoice.net]).phase =
        Phase.dead (some 0)
    ∧ sCE.input = [crashLineW, termLineW]
    ∧ termLineW = Line.mk 'S' "\"LivingRoom\"" (some (Match.bare "LivingRoom")) := by
  refine ⟨by decide, by decide, by decide, rfl, rfl⟩

end Rio
